import Mathlib

/-!
Verification development for the plot-generator module
(src/plot_generator.py of Jupyter-Book-2-plotly-optimized-rendering).

The Python module is embedded shallowly:

* numpy's global pseudo-random generator is modelled as an abstract
  stream of unit draws `stream : Nat → ℚ` together with abstract
  distribution transforms (`normal`, `exponential`, `uniform`) and
  abstract transcendental functions (`sin`, `exp`, `pi`), bundled in a
  structure `Prims`.  The generator state is the position `pos : Nat`
  into the stream; every scalar draw consumes exactly one position, in
  the order the source performs the draws.
* A plotly figure is a `Figure`: layout metadata plus a list of traces,
  each trace optionally placed at a subplot grid cell (row, col).
* `generate_plot` returns `Except String (Figure × Nat)`: the figure and
  the advanced stream position, or the ValueError message for an
  unknown plot type.
* `generate_plots` returns the list of observable events (figures sent
  to the display sink, progress lines printed) and the final stream
  position; the environment is an `Option String` for the PLOT_COUNT
  variable.
-/

/-- Abstract primitives: the raw unit-draw stream of the seeded global
generator and the (uninterpreted) distribution transforms and math
functions used by the source.  `normal mu sigma u` is the value of a
normal(mu, sigma) draw obtained from the unit draw `u`, and similarly
for `exponential scale u` and `uniform lo hi u`. -/
structure Prims where
  stream : Nat → ℚ
  normal : ℚ → ℚ → ℚ → ℚ
  exponential : ℚ → ℚ → ℚ
  uniform : ℚ → ℚ → ℚ → ℚ
  sin : ℚ → ℚ
  exp : ℚ → ℚ
  pi : ℚ

/-- `np.random.randn()`-style single standard-normal draw at stream
position `k`. -/
def randn (P : Prims) (k : Nat) : ℚ :=
  P.normal 0 1 (P.stream k)

/-- `np.random.randn(n)` starting at stream position `pos`. -/
def randnList (P : Prims) (pos n : Nat) : List ℚ :=
  (List.range n).map (fun j => randn P (pos + j))

/-- `np.random.normal(mu, sigma, n)` starting at stream position `pos`. -/
def normalList (P : Prims) (mu sigma : ℚ) (pos n : Nat) : List ℚ :=
  (List.range n).map (fun j => P.normal mu sigma (P.stream (pos + j)))

/-- `np.random.exponential(scale, n)` starting at stream position `pos`. -/
def expList (P : Prims) (scale : ℚ) (pos n : Nat) : List ℚ :=
  (List.range n).map (fun j => P.exponential scale (P.stream (pos + j)))

/-- The `j`-th element of `np.linspace(a, b, n)`. -/
def linAt (a b : ℚ) (n j : Nat) : ℚ :=
  a + (b - a) * j / ((n : ℚ) - 1)

/-- `np.linspace(a, b, n)`. -/
def linspace (a b : ℚ) (n : Nat) : List ℚ :=
  (List.range n).map (fun j => linAt a b n j)

/-- `np.cumsum`: list of partial sums. -/
def cumsum (l : List ℚ) : List ℚ :=
  (List.range l.length).map (fun j => ((l.take (j + 1)).sum))

/-- Python `str.title()` on ASCII text: an alphabetic character is
uppercased when the previous character is not alphabetic and lowercased
otherwise. -/
def pyTitleAux : Bool → List Char → List Char
  | _, [] => []
  | prevAlpha, c :: cs =>
    (if c.isAlpha then (if prevAlpha then c.toLower else c.toUpper) else c) ::
      pyTitleAux c.isAlpha cs

/-- Python `str.title()`. -/
def pyTitle (s : String) : String :=
  String.mk (pyTitleAux false s.data)

/-- Zero-padding of a decimal string to width `w` (Python `%0wd`). -/
def zfill (w : Nat) (s : String) : String :=
  String.mk (List.replicate (w - s.length) '0') ++ s

/-- Python format `f"..{j:0wd}.."` for a natural number. -/
def fmtNat (w n : Nat) : String :=
  zfill w (toString n)

/-- One plotly trace, covering exactly the constructors and keyword
options the source passes to the charting library.  `boxPx` and
`violinPx` model the `px.box` / `px.violin` calls by their two
dataframe columns. -/
inductive Trace where
  | scattergl (x y : List ℚ) (mode : String) (markerSize : ℚ) (markerColor : List ℚ)
      (colorscale : String) (showscale : Bool) (name : String) (showlegend : Bool)
  | scatter (x y : List ℚ) (mode : String) (lineWidth : Option ℚ) (fill : Option String)
      (name : String)
  | bar (x : List String) (y : List ℚ) (name : String)
  | histogram (x : List ℚ) (nbinsx : Nat) (name : String) (opacity : ℚ)
  | heatmap (z : List (List ℚ)) (colorscale : String) (showscale : Bool)
  | pie (labels : List String) (values : List ℚ) (textinfo : String) (hoverinfo : String)
  | violinPx (category : List String) (value : List ℚ)
  | boxPx (category : List String) (value : List ℚ)
  | funnel (y : List String) (x : List ℚ) (textinfo : String)
  deriving Inhabited

/-- A plotly figure: layout metadata and traces.  A trace's second
component is its subplot cell `(row, col)` when it was added with
`row=`/`col=` arguments, `none` otherwise. -/
structure Figure where
  grid : Bool
  subplotTitles : List String
  sharedX : Bool
  sharedY : Bool
  title : String
  showlegend : Option Bool
  barmode : Option String
  traces : List (Trace × Option (Nat × Nat))
  deriving Inhabited

/-- `go.Figure()`: an empty single-canvas figure. -/
def goFigure : Figure :=
  { grid := false
    subplotTitles := []
    sharedX := false
    sharedY := false
    title := ""
    showlegend := none
    barmode := none
    traces := [] }

/-- `make_subplots(rows=2, cols=2, subplot_titles=ts, shared_xaxes=False,
shared_yaxes=False)`. -/
def makeSubplots (ts : List String) : Figure :=
  { grid := true
    subplotTitles := ts
    sharedX := false
    sharedY := false
    title := ""
    showlegend := none
    barmode := none
    traces := [] }

/-- Embedding of `generate_plot(plot_type, index)` (src/plot_generator.py,
lines 44-258).  `pos` is the stream position of the global generator on
entry; the returned position accounts for every draw the branch makes,
in source order. -/
def generate_plot (P : Prims) (plot_type : String) (index : Nat) (pos : Nat) :
    Except String (Figure × Nat) :=
  if plot_type = "scatter" then
    let fig0 := makeSubplots ((List.range 4).map
      (fun i => pyTitle plot_type ++ " " ++ toString (i + 1)))
    let traces := (List.range 50).map (fun i =>
      let x := (randnList P (pos + i * 3000) 1000).map
        (fun v => v + ((i % 10 : ℕ) : ℚ) * 2)
      let y := (randnList P (pos + i * 3000 + 1000) 1000).map
        (fun v => v + ((i / 10 : ℕ) : ℚ) * 2)
      let colors := randnList P (pos + i * 3000 + 2000) 1000
      let subplotIdx := i % 4
      (Trace.scattergl x y "markers" 2 colors "Viridis" false
          ("Dataset " ++ toString (i + 1)) false,
        some (subplotIdx / 2 + 1, subplotIdx % 2 + 1)))
    .ok ({ fig0 with
      traces := traces
      title := "Plot " ++ toString (index + 1) ++
        ": Scatter Plots (50 traces, 50,000 points total)"
      showlegend := some false }, pos + 150000)
  else if plot_type = "line" then
    let fig0 := makeSubplots ((List.range 4).map
      (fun i => pyTitle plot_type ++ " " ++ toString (i + 1)))
    let traces := (List.range 4).map (fun (i : ℕ) =>
      let x := linspace 0 10 2000
      let y := (List.range 2000).map (fun j =>
        P.sin (linAt 0 10 2000 j + (i : ℚ) * P.pi / 4) *
            P.exp (-(linAt 0 10 2000 j) / 10) +
          (1 / 10) * randn P (pos + i * 2000 + j))
      (Trace.scatter x y "lines" (some (3 / 2)) none ("Signal " ++ toString (i + 1)),
        some (i / 2 + 1, i % 2 + 1)))
    .ok ({ fig0 with
      traces := traces
      title := "Plot " ++ toString (index + 1) ++
        ": Line Charts (8,000 points total)" }, pos + 8000)
  else if plot_type = "bar" then
    let fig0 := makeSubplots ((List.range 4).map
      (fun i => pyTitle plot_type ++ " " ++ toString (i + 1)))
    let categories := (List.range 50).map (fun j => "Cat_" ++ fmtNat 3 j)
    let traces := (List.range 4).map (fun (i : ℕ) =>
      let values := (expList P 10 (pos + i * 50) 50).map (fun v => v + (i : ℚ) * 5)
      (Trace.bar categories values ("Group " ++ toString (i + 1)),
        some (i / 2 + 1, i % 2 + 1)))
    .ok ({ fig0 with
      traces := traces
      title := "Plot " ++ toString (index + 1) ++ ": Bar Charts (200 bars total)"
      showlegend := some false }, pos + 200)
  else if plot_type = "histogram" then
    let traces := (List.range 3).map (fun (i : ℕ) =>
      ((Trace.histogram (normalList P (i : ℚ) 1 (pos + i * 2000) 2000) 50
          ("Distribution " ++ toString (i + 1)) (7 / 10)),
        (none : Option (Nat × Nat))))
    .ok ({ goFigure with
      traces := traces
      title := "Plot " ++ toString (index + 1) ++ ": Histogram (6,000 samples)"
      barmode := some "overlay" }, pos + 6000)
  else if plot_type = "box" then
    let allCats := List.flatten ((List.range 20).map
      (fun j => List.replicate 200 ("Group_" ++ toString j)))
    let allData := List.flatten ((List.range 20).map (fun j =>
      normalList P (P.uniform (-2) 2 (P.stream (pos + j * 201))) 1
        (pos + j * 201 + 1) 200))
    .ok ({ goFigure with
      traces := [(Trace.boxPx allCats allData, none)]
      title := "Plot " ++ toString (index + 1) ++ ": Box Plots (4,000 samples)" },
      pos + 4020)
  else if plot_type = "heatmap" then
    let z := (List.range 100).map (fun r => randnList P (pos + r * 100) 100)
    .ok ({ goFigure with
      traces := [(Trace.heatmap z "RdBu_r" true, none)]
      title := "Plot " ++ toString (index + 1) ++ ": Heatmap (10,000 cells)" },
      pos + 10000)
  else if plot_type = "pie" then
    let labels := (List.range 25).map (fun j => "Slice_" ++ fmtNat 2 j)
    let values := expList P 10 pos 25
    .ok ({ goFigure with
      traces := [(Trace.pie labels values "none" "label+percent", none)]
      title := "Plot " ++ toString (index + 1) ++ ": Pie Chart (25 slices)" },
      pos + 25)
  else if plot_type = "violin" then
    let cats := ["A", "B", "C", "D", "E"]
    let mu := fun (c : String) => ((((c.data.headD 'C').toNat : ℤ) - 67 : ℤ) : ℚ)
    let allCats := List.flatten ((List.range 5).map
      (fun k => List.replicate 1000 (cats.getD k "")))
    let allData := List.flatten ((List.range 5).map (fun k =>
      normalList P (mu (cats.getD k "")) 1 (pos + k * 1000) 1000))
    .ok ({ goFigure with
      traces := [(Trace.violinPx allCats allData, none)]
      title := "Plot " ++ toString (index + 1) ++ ": Violin Plots (5,000 samples)" },
      pos + 5000)
  else if plot_type = "area" then
    let x := linspace 0 10 500
    let traces := (List.range 5).map (fun (i : ℕ) =>
      let y := (cumsum (randnList P (pos + i * 500) 500)).map
        (fun v => v + (i : ℚ) * 10)
      ((Trace.scatter x y "lines" none
          (some (if 0 < i then "tonexty" else "tozeroy"))
          ("Series " ++ toString (i + 1))),
        (none : Option (Nat × Nat))))
    .ok ({ goFigure with
      traces := traces
      title := "Plot " ++ toString (index + 1) ++ ": Area Chart (2,500 points)" },
      pos + 2500)
  else if plot_type = "funnel" then
    let stages := (List.range 15).map (fun j => "Stage_" ++ fmtNat 2 j)
    let values := (List.insertionSort (· ≤ ·) (expList P 100 pos 15)).reverse
    .ok ({ goFigure with
      traces := [(Trace.funnel stages values "value+percent initial", none)]
      title := "Plot " ++ toString (index + 1) ++ ": Funnel Chart (15 stages)" },
      pos + 15)
  else
    .error ("Unknown plot type: " ++ plot_type)

/-- The ordered plot-type catalog `PLOT_TYPES` (src/plot_generator.py,
lines 18-29). -/
def PLOT_TYPES : List String :=
  ["scatter", "line", "bar", "histogram", "box", "heatmap", "pie", "violin",
   "area", "funnel"]

/-- One decimal digit character's value, `none` for a non-digit. -/
def digitVal (c : Char) : Option Nat :=
  if c.isDigit then some (c.toNat - 48) else none

/-- Accumulating base-10 parse of a run of characters; fails on the
first non-digit. -/
def parseDigitsAux : Nat → List Char → Option Nat
  | acc, [] => some acc
  | acc, c :: cs =>
    match digitVal c with
    | some d => parseDigitsAux (acc * 10 + d) cs
    | none => none

/-- Base-10 parse of a nonempty digit run. -/
def parseDigits (cs : List Char) : Option Nat :=
  if cs = [] then none else parseDigitsAux 0 cs

/-- Modelled Python builtin `int(s)` restricted to an optional sign
followed by decimal digits (the source relies on it only through
`int(os.getenv("PLOT_COUNT", "4"))`; whitespace stripping and digit
underscores, which Python also accepts, are outside every claim's
scope). -/
def pyInt (s : String) : Except String Int :=
  let core : Option Int :=
    match s.data with
    | [] => none
    | c :: rest =>
      if c = '-' then (parseDigits rest).map (fun n => -(n : ℤ))
      else if c = '+' then (parseDigits rest).map (fun n => (n : ℤ))
      else (parseDigits (c :: rest)).map (fun n => (n : ℤ))
  match core with
  | some n => .ok n
  | none => .error ("invalid literal for int() with base 10: " ++ s)

/-- Embedding of `get_plot_count()` (src/plot_generator.py, lines 32-41):
`int(os.getenv("PLOT_COUNT", "4"))` with the environment modelled as an
optional string. -/
def get_plot_count (env : Option String) : Except String Int :=
  pyInt (env.getD "4")

/-- An observable effect of the driver loop: a figure handed to the
display sink (`fig.show()`) or a progress line printed. -/
inductive Event where
  | display (fig : Figure)
  | progress (line : String)
  deriving Inhabited

/-- The progress line `f"\n--- {k} plots generated ---\n"`. -/
def progressMsg (k : Nat) : String :=
  "\n--- " ++ toString k ++ " plots generated ---\n"

/-- The body of the `for i in range(num_plots)` loop of `generate_plots`
(src/plot_generator.py, lines 272-281), with `k` plots left to make,
`i` the current loop index and `pos` the generator position. -/
def driverLoop (P : Prims) (sp : Bool) : Nat → Nat → Nat → Except String (List Event × Nat)
  | _, pos, 0 => .ok ([], pos)
  | i, pos, k + 1 =>
    match generate_plot P (PLOT_TYPES.getD (i % PLOT_TYPES.length) "") i pos with
    | .error e => .error e
    | .ok (fig, pos2) =>
      match driverLoop P sp (i + 1) pos2 k with
      | .error e => .error e
      | .ok (evs, pos3) =>
        .ok (Event.display fig ::
          ((if sp ∧ (i + 1) % 10 = 0 then [Event.progress (progressMsg (i + 1))]
            else []) ++ evs), pos3)

/-- Embedding of `generate_plots(num_plots, show_progress)`
(src/plot_generator.py, lines 261-281).  `num_plots = none` models the
Python default `None`, which makes the function consult
`get_plot_count`; a parse failure there propagates. -/
def generate_plots (P : Prims) (env : Option String) (num_plots : Option Int)
    (show_progress : Bool) (pos : Nat) : Except String (List Event × Nat) :=
  match (match num_plots with
         | none => get_plot_count env
         | some n => .ok n) with
  | .error e => .error e
  | .ok n => driverLoop P show_progress 0 pos n.toNat

/-! ### Specification-side observation helpers

The following definitions do not model source code; they extract
observations from the embedded program for use in theorem statements. -/

/-- The figure `generate_plot` produces for a known tag (junk default
for the error case, which the lemmas below never hit). -/
def figFor (P : Prims) (t : String) (i pos : Nat) : Figure :=
  match generate_plot P t i pos with
  | .ok r => r.1
  | .error _ => default

/-- Number of stream draws each catalog tag consumes. -/
def drawCount : String → Nat
  | "scatter" => 150000
  | "line" => 8000
  | "bar" => 200
  | "histogram" => 6000
  | "box" => 4020
  | "heatmap" => 10000
  | "pie" => 25
  | "violin" => 5000
  | "area" => 2500
  | "funnel" => 15
  | _ => 0

/-- The tag the driver loop selects at iteration `i`. -/
def tagAt (i : Nat) : String :=
  PLOT_TYPES.getD (i % PLOT_TYPES.length) ""

/-- Stream draws consumed by `k` driver iterations starting at
iteration `i`. -/
def sumDraws : Nat → Nat → Nat
  | _, 0 => 0
  | i, k + 1 => drawCount (tagAt i) + sumDraws (i + 1) k

/-- Closed form of the event list produced by `k` driver iterations
starting at loop index `i` and stream position `pos`. -/
def eventsFrom (P : Prims) (sp : Bool) : Nat → Nat → Nat → List Event
  | _, _, 0 => []
  | i, pos, k + 1 =>
    Event.display (figFor P (tagAt i) i pos) ::
      ((if sp ∧ (i + 1) % 10 = 0 then [Event.progress (progressMsg (i + 1))]
        else []) ++ eventsFrom P sp (i + 1) (pos + drawCount (tagAt i)) k)

/-- The figures a run hands to the display sink, in order. -/
def displayedFigs (evs : List Event) : List Figure :=
  evs.filterMap (fun e => match e with
    | Event.display f => some f
    | Event.progress _ => none)

/-- The progress lines a run prints, in order. -/
def progressLines (evs : List Event) : List String :=
  evs.filterMap (fun e => match e with
    | Event.display _ => none
    | Event.progress s => some s)

/-- Whether an event is a progress line (for positional statements
about the event stream). -/
def isProgress : Event → Bool
  | Event.display _ => false
  | Event.progress _ => true

/-- Numeric x-data of a trace (empty for traces with no numeric x). -/
def traceNumX : Trace → List ℚ
  | Trace.scattergl x _ _ _ _ _ _ _ _ => x
  | Trace.scatter x _ _ _ _ _ => x
  | Trace.histogram x _ _ _ => x
  | Trace.funnel _ x _ => x
  | _ => []

/-- Numeric y-data of a trace (empty for traces with no numeric y). -/
def traceNumY : Trace → List ℚ
  | Trace.scattergl _ y _ _ _ _ _ _ _ => y
  | Trace.scatter _ y _ _ _ _ => y
  | Trace.bar _ y _ => y
  | _ => []

/-- Categorical strings of a trace: bar categories, pie labels, funnel
stages, or the category column of a px box/violin. -/
def traceStrs : Trace → List String
  | Trace.bar x _ _ => x
  | Trace.pie ls _ _ _ => ls
  | Trace.violinPx c _ => c
  | Trace.boxPx c _ => c
  | Trace.funnel s _ _ => s
  | _ => []

/-- Numeric value column of a trace: pie values or the value column of
a px box/violin. -/
def traceVals : Trace → List ℚ
  | Trace.pie _ v _ _ => v
  | Trace.violinPx _ v => v
  | Trace.boxPx _ v => v
  | _ => []

/-- Heatmap matrix of a trace. -/
def traceZ : Trace → List (List ℚ)
  | Trace.heatmap z _ _ => z
  | _ => []

/-- `nbinsx` of a histogram trace. -/
def traceBins : Trace → Nat
  | Trace.histogram _ b _ _ => b
  | _ => 0

/-- `textinfo` of a pie or funnel trace. -/
def traceTextinfo : Trace → Option String
  | Trace.pie _ _ t _ => some t
  | Trace.funnel _ _ t => some t
  | _ => none

/-- A concrete instantiation of the abstract primitives, used to
evaluate the embedding at explicit inputs: the unit stream is
identically zero, the distribution transforms are simple affine maps of
the unit draw. -/
def P0 : Prims :=
  { stream := fun _ => 0
    normal := fun mu sigma u => mu + sigma * u
    exponential := fun scale u => scale * u
    uniform := fun lo _ u => lo + u
    sin := fun _ => 0
    exp := fun _ => 1
    pi := 0 }

/-- Closed form of the figures a run displays: one per iteration, built
from the tag the loop selects at that iteration. -/
def figsFrom (P : Prims) : Nat → Nat → Nat → List Figure
  | _, _, 0 => []
  | i, pos, k + 1 =>
    figFor P (tagAt i) i pos :: figsFrom P (i + 1) (pos + drawCount (tagAt i)) k

/-- Closed form of the progress lines a run prints when the progress
flag is on. -/
def msgsFrom : Nat → Nat → List String
  | _, 0 => []
  | i, k + 1 =>
    (if (i + 1) % 10 = 0 then [progressMsg (i + 1)] else []) ++ msgsFrom (i + 1) k

/-- Closed form of the event stream's shape: `false` for a displayed
figure, `true` for a progress line. -/
def flagsFrom (sp : Bool) : Nat → Nat → List Bool
  | _, 0 => []
  | i, k + 1 =>
    false :: ((if sp ∧ (i + 1) % 10 = 0 then [true] else []) ++ flagsFrom sp (i + 1) k)

/-- Everything in a figure except its title. -/
def figData (f : Figure) :
    Bool × List String × Bool × Bool × Option Bool × Option String ×
      List (Trace × Option (Nat × Nat)) :=
  (f.grid, f.subplotTitles, f.sharedX, f.sharedY, f.showlegend, f.barmode, f.traces)

/-- Canonical base-10 string of a natural number (statement-side
formalisation of "the base-10 string of n"). -/
def natRepr (n : Nat) : String :=
  if _h : n < 10 then String.singleton (Char.ofNat (48 + n))
  else natRepr (n / 10) ++ String.singleton (Char.ofNat (48 + n % 10))
decreasing_by exact Nat.div_lt_self (by omega) (by omega)

/-! ### Basic lemmas about the embedding -/

/-- The driver loop's tag selection always lands in the catalog. -/
theorem tagAt_mem (i : Nat) : tagAt i ∈ PLOT_TYPES := by
  have h : i % PLOT_TYPES.length < PLOT_TYPES.length := Nat.mod_lt _ (by decide)
  unfold tagAt
  rw [List.getD_eq_getElem _ _ h]
  exact List.getElem_mem h

/-- On a catalog tag, `generate_plot` succeeds and advances the stream
position by exactly `drawCount` draws. -/
theorem gp_ok_of_mem (P : Prims) (t : String) (ht : t ∈ PLOT_TYPES) (i pos : Nat) :
    generate_plot P t i pos = .ok (figFor P t i pos, pos + drawCount t) := by
  fin_cases ht <;> rfl

/-- The driver loop never fails, and its events and final position have
the closed forms `eventsFrom` and `sumDraws`. -/
theorem driverLoop_eq (P : Prims) (sp : Bool) (k : Nat) : ∀ i pos,
    driverLoop P sp i pos k = .ok (eventsFrom P sp i pos k, pos + sumDraws i k) := by
  induction k with
  | zero => intro i pos; rfl
  | succ k ih =>
    intro i pos
    have h := gp_ok_of_mem P (tagAt i) (tagAt_mem i) i pos
    simp only [driverLoop, eventsFrom, sumDraws]
    rw [show PLOT_TYPES.getD (i % PLOT_TYPES.length) "" = tagAt i from rfl, h]
    dsimp only
    rw [ih]
    simp [Nat.add_assoc]

theorem displayedFigs_eventsFrom (P : Prims) (sp : Bool) (k : Nat) : ∀ i pos,
    displayedFigs (eventsFrom P sp i pos k) = figsFrom P i pos k := by
  induction k with
  | zero => intro i pos; rfl
  | succ k ih =>
    intro i pos
    simp only [eventsFrom, figsFrom, displayedFigs] at *
    rcases Bool.eq_false_or_eq_true sp with hsp | hsp <;> subst hsp <;>
      by_cases h : (i + 1) % 10 = 0 <;> simp [h, ih]

theorem progressLines_eventsFrom_true (P : Prims) (k : Nat) : ∀ i pos,
    progressLines (eventsFrom P true i pos k) = msgsFrom i k := by
  induction k with
  | zero => intro i pos; rfl
  | succ k ih =>
    intro i pos
    simp only [eventsFrom, msgsFrom, progressLines] at *
    by_cases h : (i + 1) % 10 = 0 <;> simp [h, ih]

theorem progressLines_eventsFrom_false (P : Prims) (k : Nat) : ∀ i pos,
    progressLines (eventsFrom P false i pos k) = [] := by
  induction k with
  | zero => intro i pos; rfl
  | succ k ih =>
    intro i pos
    simp only [eventsFrom, progressLines] at *
    simp [ih]

theorem isProgress_eventsFrom (P : Prims) (sp : Bool) (k : Nat) : ∀ i pos,
    (eventsFrom P sp i pos k).map isProgress = flagsFrom sp i k := by
  induction k with
  | zero => intro i pos; rfl
  | succ k ih =>
    intro i pos
    simp only [eventsFrom, flagsFrom] at *
    rcases Bool.eq_false_or_eq_true sp with hsp | hsp <;> subst hsp <;>
      by_cases h : (i + 1) % 10 = 0 <;> simp [h, ih, isProgress]

/-- With an explicit count, a run never fails and produces the
closed-form event list and final position. -/
theorem generate_plots_some (P : Prims) (env : Option String) (sp : Bool)
    (pos : Nat) (n : Int) :
    generate_plots P env (some n) sp pos =
      .ok (eventsFrom P sp 0 pos n.toNat, pos + sumDraws 0 n.toNat) := by
  simp only [generate_plots]
  exact driverLoop_eq P sp n.toNat 0 pos

/-- C10: calling `generate_plots` with `num_plots = 0` synthesizes no
figure, sends nothing to the display sink, emits no progress line for
either value of `show_progress`, does not read the configuration value
(the result is the same for every `env`), and leaves the random
generator position unchanged. -/
theorem generate_plots_zero (P : Prims) (env : Option String) (sp : Bool) (pos : Nat) :
    generate_plots P env (some 0) sp pos = .ok ([], pos) := rfl

/-- C4: the driver loop selects the tag for iteration `i` as
`catalog[i % 10]`: the displayed figures are exactly those generated
from `tagAt i` at iteration `i` (`figsFrom`), `tagAt i` is
`PLOT_TYPES[i % 10]`, and for a count of 25 the tag sequence is the
catalog cycled round-robin. -/
theorem driver_round_robin :
    (∀ (P : Prims) (env : Option String) (sp : Bool) (pos : Nat) (n : Int),
      (generate_plots P env (some n) sp pos).map (fun r => displayedFigs r.1) =
        .ok (figsFrom P 0 pos n.toNat)) ∧
    (∀ i : Nat, tagAt i = PLOT_TYPES.getD (i % 10) "") ∧
    (List.range 25).map tagAt =
      ["scatter", "line", "bar", "histogram", "box",
       "heatmap", "pie", "violin", "area", "funnel",
       "scatter", "line", "bar", "histogram", "box",
       "heatmap", "pie", "violin", "area", "funnel",
       "scatter", "line", "bar", "histogram", "box"] := by
  refine ⟨fun P env sp pos n => ?_, fun i => rfl, by decide⟩
  rw [generate_plots_some]
  dsimp only [Except.map]
  exact congrArg Except.ok (displayedFigs_eventsFrom P sp n.toNat 0 pos)

/-- C5: with the progress flag on, a run prints exactly the progress
lines after the plots whose 1-based position is a multiple of 10 (in
the event stream each such line sits right after the corresponding
displayed figure); with the flag off it prints none; for a count of 23
exactly the two lines after plot 10 and plot 20 are printed. -/
theorem progress_emission :
    (∀ (P : Prims) (env : Option String) (pos : Nat) (n : Int),
      (generate_plots P env (some n) true pos).map (fun r => progressLines r.1) =
        .ok (msgsFrom 0 n.toNat)) ∧
    (∀ (P : Prims) (env : Option String) (pos : Nat) (n : Int),
      (generate_plots P env (some n) false pos).map (fun r => progressLines r.1) =
        .ok []) ∧
    (∀ (P : Prims) (env : Option String) (pos : Nat),
      (generate_plots P env (some 23) true pos).map (fun r => progressLines r.1) =
        .ok [progressMsg 10, progressMsg 20]) ∧
    (∀ (P : Prims) (env : Option String) (pos : Nat),
      (generate_plots P env (some 23) true pos).map (fun r => r.1.map isProgress) =
        .ok (flagsFrom true 0 23)) ∧
    flagsFrom true 0 23 =
      [false, false, false, false, false, false, false, false, false, false, true,
       false, false, false, false, false, false, false, false, false, false, true,
       false, false, false] := by
  refine ⟨fun P env pos n => ?_, fun P env pos n => ?_, fun P env pos => ?_,
    fun P env pos => ?_, by decide⟩
  · rw [generate_plots_some]
    dsimp only [Except.map]
    exact congrArg Except.ok (progressLines_eventsFrom_true P n.toNat 0 pos)
  · rw [generate_plots_some]
    dsimp only [Except.map]
    exact congrArg Except.ok (progressLines_eventsFrom_false P n.toNat 0 pos)
  · rw [generate_plots_some]
    dsimp only [Except.map]
    rw [progressLines_eventsFrom_true]
    exact congrArg Except.ok (by decide)
  · rw [generate_plots_some]
    dsimp only [Except.map]
    exact congrArg Except.ok (isProgress_eventsFrom P true (Int.toNat 23) 0 pos)

/-- C1: `generate_plot` returns a figure (never raises) exactly on the
10 catalog tags, for every index and generator position, and fails
with the Unknown Plot Type error on every tag outside the catalog. -/
theorem unknown_type_iff (P : Prims) (t : String) (i pos : Nat) :
    ((∃ r, generate_plot P t i pos = .ok r) ↔ t ∈ PLOT_TYPES) ∧
    (t ∉ PLOT_TYPES → generate_plot P t i pos = .error ("Unknown plot type: " ++ t)) := by
  by_cases h : t ∈ PLOT_TYPES
  · exact ⟨⟨fun _ => h, fun _ => ⟨_, gp_ok_of_mem P t h i pos⟩⟩, fun hn => absurd h hn⟩
  · have h10 : t ≠ "scatter" ∧ t ≠ "line" ∧ t ≠ "bar" ∧ t ≠ "histogram" ∧ t ≠ "box" ∧
        t ≠ "heatmap" ∧ t ≠ "pie" ∧ t ≠ "violin" ∧ t ≠ "area" ∧ t ≠ "funnel" := by
      simpa [PLOT_TYPES, List.mem_cons, not_or] using h
    obtain ⟨h1, h2, h3, h4, h5, h6, h7, h8, h9, hA⟩ := h10
    have he : generate_plot P t i pos = .error ("Unknown plot type: " ++ t) := by
      simp [generate_plot, h1, h2, h3, h4, h5, h6, h7, h8, h9, hA]
    refine ⟨⟨fun hr => ?_, fun hm => absurd hm h⟩, fun _ => he⟩
    obtain ⟨r, hr⟩ := hr
    rw [he] at hr
    simp at hr

/-- Witness for C1's error direction: a tag outside the catalog is
rejected with the Unknown Plot Type message. -/
theorem unknown_type_iff_witness :
    generate_plot P0 "surface" 0 0 = .error ("Unknown plot type: " ++ "surface") :=
  (unknown_type_iff P0 "surface" 0 0).2 (by decide)

set_option maxRecDepth 8000 in
/-- C3: for the grid-layout types (scatter, line, bar) every series
`s` is placed in cell `s % 4`, i.e. at
`(row, col) = ((s % 4) / 2 + 1, (s % 4) % 2 + 1)`; in particular
scatter series 5 lands at (row 1, col 2) and series 0 at (row 1,
col 1). -/
theorem grid_cell_mapping (P : Prims) (i pos : Nat) :
    ((figFor P "scatter" i pos).traces.map Prod.snd =
      (List.range 50).map (fun s => some ((s % 4) / 2 + 1, (s % 4) % 2 + 1))) ∧
    ((figFor P "line" i pos).traces.map Prod.snd =
      (List.range 4).map (fun s => some ((s % 4) / 2 + 1, (s % 4) % 2 + 1))) ∧
    ((figFor P "bar" i pos).traces.map Prod.snd =
      (List.range 4).map (fun s => some ((s % 4) / 2 + 1, (s % 4) % 2 + 1))) ∧
    ((figFor P "scatter" i pos).traces.map Prod.snd).getD 5 none = some (1, 2) ∧
    ((figFor P "scatter" i pos).traces.map Prod.snd).getD 0 none = some (1, 1) :=
  ⟨rfl, rfl, rfl, rfl, rfl⟩

set_option maxRecDepth 8000 in
/-- C2 (amended): the scatter figure has exactly 50 series of 1000
points each, and series `s` is the gaussian sample offset by
`(2·(s % 10), 2·(s // 10))` in (x, y) — twice the offsets the original
claim states. -/
theorem scatter_series (P : Prims) (i pos : Nat) :
    (figFor P "scatter" i pos).traces.length = 50 ∧
    (figFor P "scatter" i pos).traces.map (fun t => traceNumX t.1) =
      (List.range 50).map (fun s =>
        (randnList P (pos + s * 3000) 1000).map
          (fun v => v + ((s % 10 : ℕ) : ℚ) * 2)) ∧
    (figFor P "scatter" i pos).traces.map (fun t => traceNumY t.1) =
      (List.range 50).map (fun s =>
        (randnList P (pos + s * 3000 + 1000) 1000).map
          (fun v => v + ((s / 10 : ℕ) : ℚ) * 2)) ∧
    (figFor P "scatter" i pos).traces.map (fun t => (traceNumX t.1).length) =
      List.replicate 50 1000 ∧
    (figFor P "scatter" i pos).traces.map (fun t => (traceNumY t.1).length) =
      List.replicate 50 1000 := by
  have htr : (figFor P "scatter" i pos).traces = (List.range 50).map (fun s =>
      (Trace.scattergl
        ((randnList P (pos + s * 3000) 1000).map
          (fun v => v + ((s % 10 : ℕ) : ℚ) * 2))
        ((randnList P (pos + s * 3000 + 1000) 1000).map
          (fun v => v + ((s / 10 : ℕ) : ℚ) * 2))
        "markers" 2 (randnList P (pos + s * 3000 + 2000) 1000) "Viridis" false
        ("Dataset " ++ toString (s + 1)) false,
        some ((s % 4) / 2 + 1, (s % 4) % 2 + 1))) := rfl
  refine ⟨rfl, ?_, ?_, ?_, ?_⟩
  · rw [htr, List.map_map]
    rfl
  · rw [htr, List.map_map]
    rfl
  · rw [htr, List.map_map]
    rw [List.eq_replicate_iff]
    refine ⟨by simp, fun b hb => ?_⟩
    simp only [List.mem_map, List.mem_range, Function.comp] at hb
    obtain ⟨s, hs, rfl⟩ := hb
    simp [traceNumX, randnList]
  · rw [htr, List.map_map]
    rw [List.eq_replicate_iff]
    refine ⟨by simp, fun b hb => ?_⟩
    simp only [List.mem_map, List.mem_range, Function.comp] at hb
    obtain ⟨s, hs, rfl⟩ := hb
    simp [traceNumY, randnList]

set_option maxRecDepth 8000 in
/-- C2 counterexample: at concrete primitives `P0`, scatter series 1's
first x-value is the draw shifted by `2` (the code adds
`(i % 10) * 2`), not the draw shifted by `1 % 10 = 1` as the claim
states. -/
theorem scatter_offset_counterexample :
    ¬ (traceNumX ((figFor P0 "scatter" 0 0).traces.getD 1 default).1 =
       (randnList P0 (0 + 1 * 3000) 1000).map (fun v => v + ((1 % 10 : ℕ) : ℚ))) := by
  intro h
  have h0 := congrArg (fun l => l.getD 0 0) h
  have e1 : traceNumX ((figFor P0 "scatter" 0 0).traces.getD 1 default).1 =
      (randnList P0 (0 + 1 * 3000) 1000).map
        (fun v => v + ((1 % 10 : ℕ) : ℚ) * 2) := rfl
  rw [e1] at h0
  simp only [randnList, List.map_map] at h0
  rw [show (1000 : ℕ) = 999 + 1 from rfl, List.range_succ_eq_map] at h0
  simp only [List.map_cons, List.getD_cons_zero, Function.comp] at h0
  norm_num [randn, P0] at h0

/-- C8: the index argument influences only the title text.  For any
tag and fixed generator position, two calls with indices `i1` and `i2`
agree on everything except the title (including the final generator
position, and including the error outcome for unknown tags), and each
call's title is exactly the 1-based index embedded in a prefix
followed by an index-independent description. -/
theorem index_noninterference (P : Prims) (pt : String) (i1 i2 pos : Nat) :
    (generate_plot P pt i1 pos).map (fun r => (figData r.1, r.2)) =
      (generate_plot P pt i2 pos).map (fun r => (figData r.1, r.2)) ∧
    ∃ s : String,
      (generate_plot P pt i1 pos).map (fun r => r.1.title) =
        (generate_plot P pt i1 pos).map
          (fun _ => "Plot " ++ toString (i1 + 1) ++ (": " ++ s)) ∧
      (generate_plot P pt i2 pos).map (fun r => r.1.title) =
        (generate_plot P pt i2 pos).map
          (fun _ => "Plot " ++ toString (i2 + 1) ++ (": " ++ s)) := by
  by_cases h : pt ∈ PLOT_TYPES
  · fin_cases h
    · exact ⟨rfl, "Scatter Plots (50 traces, 50,000 points total)", rfl, rfl⟩
    · exact ⟨rfl, "Line Charts (8,000 points total)", rfl, rfl⟩
    · exact ⟨rfl, "Bar Charts (200 bars total)", rfl, rfl⟩
    · exact ⟨rfl, "Histogram (6,000 samples)", rfl, rfl⟩
    · exact ⟨rfl, "Box Plots (4,000 samples)", rfl, rfl⟩
    · exact ⟨rfl, "Heatmap (10,000 cells)", rfl, rfl⟩
    · exact ⟨rfl, "Pie Chart (25 slices)", rfl, rfl⟩
    · exact ⟨rfl, "Violin Plots (5,000 samples)", rfl, rfl⟩
    · exact ⟨rfl, "Area Chart (2,500 points)", rfl, rfl⟩
    · exact ⟨rfl, "Funnel Chart (15 stages)", rfl, rfl⟩
  · have h10 : pt ≠ "scatter" ∧ pt ≠ "line" ∧ pt ≠ "bar" ∧ pt ≠ "histogram" ∧
        pt ≠ "box" ∧ pt ≠ "heatmap" ∧ pt ≠ "pie" ∧ pt ≠ "violin" ∧ pt ≠ "area" ∧
        pt ≠ "funnel" := by
      simpa [PLOT_TYPES, List.mem_cons, not_or] using h
    obtain ⟨h1, h2, h3, h4, h5, h6, h7, h8, h9, hA⟩ := h10
    have he1 : generate_plot P pt i1 pos = .error ("Unknown plot type: " ++ pt) := by
      simp [generate_plot, h1, h2, h3, h4, h5, h6, h7, h8, h9, hA]
    have he2 : generate_plot P pt i2 pos = .error ("Unknown plot type: " ++ pt) := by
      simp [generate_plot, h1, h2, h3, h4, h5, h6, h7, h8, h9, hA]
    refine ⟨by rw [he1, he2], "", ?_, ?_⟩
    · rw [he1]
      rfl
    · rw [he2]
      rfl

set_option maxRecDepth 8000 in
/-- C9: the funnel figure has a single trace with exactly 15 stages
whose values are the 15 exponential draws arranged in non-increasing
(descending sorted) order, with text labels showing value and
percent-of-initial. -/
theorem funnel_stages (P : Prims) (i pos : Nat) :
    (figFor P "funnel" i pos).traces.length = 1 ∧
    (traceStrs ((figFor P "funnel" i pos).traces.getD 0 default).1).length = 15 ∧
    (traceNumX ((figFor P "funnel" i pos).traces.getD 0 default).1).length = 15 ∧
    List.Sorted (fun a b => a ≥ b)
      (traceNumX ((figFor P "funnel" i pos).traces.getD 0 default).1) ∧
    List.Perm (traceNumX ((figFor P "funnel" i pos).traces.getD 0 default).1)
      (expList P 100 pos 15) ∧
    traceTextinfo ((figFor P "funnel" i pos).traces.getD 0 default).1 =
      some "value+percent initial" := by
  have hfig : (figFor P "funnel" i pos).traces =
      [(Trace.funnel ((List.range 15).map (fun j => "Stage_" ++ fmtNat 2 j))
        ((List.insertionSort (· ≤ ·) (expList P 100 pos 15)).reverse)
        "value+percent initial", none)] := rfl
  have hp : List.Perm ((List.insertionSort (· ≤ ·) (expList P 100 pos 15)).reverse)
      (expList P 100 pos 15) :=
    (List.reverse_perm _).trans (List.perm_insertionSort _ _)
  refine ⟨by rw [hfig]; rfl, ?_, ?_, ?_, ?_, ?_⟩ <;>
    rw [hfig] <;> dsimp only [List.getD_cons_zero, traceStrs, traceNumX, traceTextinfo]
  · simp only [List.length_map, List.length_range]
  · rw [hp.length_eq]
    simp only [expList, List.length_map, List.length_range]
  · rw [List.Sorted, List.pairwise_reverse]
    exact List.sorted_insertionSort (· ≤ ·) (expList P 100 pos 15)
  · exact hp

/-- Sum of a constant map over a range. -/
theorem sum_map_const (n m : Nat) : ((List.range n).map (fun _ => m)).sum = n * m := by
  induction n with
  | zero => simp
  | succ k ih =>
    rw [List.range_succ, List.map_append, List.sum_append, ih]
    simp [Nat.succ_mul]

set_option maxRecDepth 8000 in
/-- C7: for every catalog tag, the figure carries exactly the trace
counts and dataset sizes of the spec's table: 50 scatter series of
1000 points; 4 line series of 2000 points; 4 bar series over 50
categories; 3 histograms of 2000 samples with 50 bins; one box trace
of 20 categories of 200 samples (4000 rows); one 100 x 100 heatmap
matrix; 25 pie slices; one violin trace of 5 categories of 1000
samples (5000 rows); 5 area series of 500 points; 15 funnel stages. -/
theorem dataset_sizes (P : Prims) (i pos : Nat) :
    ((figFor P "scatter" i pos).traces.length = 50 ∧
      (figFor P "scatter" i pos).traces.map (fun t => (traceNumX t.1).length) =
        List.replicate 50 1000 ∧
      (figFor P "scatter" i pos).traces.map (fun t => (traceNumY t.1).length) =
        List.replicate 50 1000) ∧
    ((figFor P "line" i pos).traces.length = 4 ∧
      (figFor P "line" i pos).traces.map (fun t => (traceNumX t.1).length) =
        List.replicate 4 2000 ∧
      (figFor P "line" i pos).traces.map (fun t => (traceNumY t.1).length) =
        List.replicate 4 2000) ∧
    ((figFor P "bar" i pos).traces.length = 4 ∧
      (figFor P "bar" i pos).traces.map (fun t => (traceStrs t.1).length) =
        List.replicate 4 50 ∧
      (figFor P "bar" i pos).traces.map (fun t => (traceNumY t.1).length) =
        List.replicate 4 50) ∧
    ((figFor P "histogram" i pos).traces.length = 3 ∧
      (figFor P "histogram" i pos).traces.map (fun t => (traceNumX t.1).length) =
        List.replicate 3 2000 ∧
      (figFor P "histogram" i pos).traces.map (fun t => traceBins t.1) =
        List.replicate 3 50) ∧
    ((figFor P "box" i pos).traces.length = 1 ∧
      (traceVals ((figFor P "box" i pos).traces.getD 0 default).1).length = 4000 ∧
      traceStrs ((figFor P "box" i pos).traces.getD 0 default).1 =
        List.flatten ((List.range 20).map (fun j =>
          List.replicate 200 ("Group_" ++ toString j)))) ∧
    ((figFor P "heatmap" i pos).traces.length = 1 ∧
      (traceZ ((figFor P "heatmap" i pos).traces.getD 0 default).1).length = 100 ∧
      (traceZ ((figFor P "heatmap" i pos).traces.getD 0 default).1).map List.length =
        List.replicate 100 100) ∧
    ((figFor P "pie" i pos).traces.length = 1 ∧
      (traceStrs ((figFor P "pie" i pos).traces.getD 0 default).1).length = 25 ∧
      (traceVals ((figFor P "pie" i pos).traces.getD 0 default).1).length = 25) ∧
    ((figFor P "violin" i pos).traces.length = 1 ∧
      (traceVals ((figFor P "violin" i pos).traces.getD 0 default).1).length = 5000 ∧
      traceStrs ((figFor P "violin" i pos).traces.getD 0 default).1 =
        List.flatten ((List.range 5).map (fun k =>
          List.replicate 1000 ((["A", "B", "C", "D", "E"] : List String).getD k "")))) ∧
    ((figFor P "area" i pos).traces.length = 5 ∧
      (figFor P "area" i pos).traces.map (fun t => (traceNumX t.1).length) =
        List.replicate 5 500 ∧
      (figFor P "area" i pos).traces.map (fun t => (traceNumY t.1).length) =
        List.replicate 5 500) ∧
    ((figFor P "funnel" i pos).traces.length = 1 ∧
      (traceStrs ((figFor P "funnel" i pos).traces.getD 0 default).1).length = 15 ∧
      (traceNumX ((figFor P "funnel" i pos).traces.getD 0 default).1).length = 15) := by
  have hsc : (figFor P "scatter" i pos).traces = (List.range 50).map (fun s =>
      (Trace.scattergl
        ((randnList P (pos + s * 3000) 1000).map
          (fun v => v + ((s % 10 : ℕ) : ℚ) * 2))
        ((randnList P (pos + s * 3000 + 1000) 1000).map
          (fun v => v + ((s / 10 : ℕ) : ℚ) * 2))
        "markers" 2 (randnList P (pos + s * 3000 + 2000) 1000) "Viridis" false
        ("Dataset " ++ toString (s + 1)) false,
        some ((s % 4) / 2 + 1, (s % 4) % 2 + 1))) := rfl
  have hline : (figFor P "line" i pos).traces = (List.range 4).map (fun (s : ℕ) =>
      (Trace.scatter (linspace 0 10 2000)
        ((List.range 2000).map (fun j =>
          P.sin (linAt 0 10 2000 j + (s : ℚ) * P.pi / 4) *
              P.exp (-(linAt 0 10 2000 j) / 10) +
            (1 / 10) * randn P (pos + s * 2000 + j)))
        "lines" (some (3 / 2)) none ("Signal " ++ toString (s + 1)),
        some (s / 2 + 1, s % 2 + 1))) := rfl
  have hbar : (figFor P "bar" i pos).traces = (List.range 4).map (fun (s : ℕ) =>
      (Trace.bar ((List.range 50).map (fun j => "Cat_" ++ fmtNat 3 j))
        ((expList P 10 (pos + s * 50) 50).map (fun v => v + (s : ℚ) * 5))
        ("Group " ++ toString (s + 1)),
        some (s / 2 + 1, s % 2 + 1))) := rfl
  have hhist : (figFor P "histogram" i pos).traces = (List.range 3).map (fun (s : ℕ) =>
      (Trace.histogram (normalList P (s : ℚ) 1 (pos + s * 2000) 2000) 50
        ("Distribution " ++ toString (s + 1)) (7 / 10),
        (none : Option (Nat × Nat)))) := rfl
  have hbox : (figFor P "box" i pos).traces =
      [(Trace.boxPx
        (List.flatten ((List.range 20).map (fun j =>
          List.replicate 200 ("Group_" ++ toString j))))
        (List.flatten ((List.range 20).map (fun j =>
          normalList P (P.uniform (-2) 2 (P.stream (pos + j * 201))) 1
            (pos + j * 201 + 1) 200))), none)] := rfl
  have hheat : (figFor P "heatmap" i pos).traces =
      [(Trace.heatmap ((List.range 100).map (fun r => randnList P (pos + r * 100) 100))
        "RdBu_r" true, none)] := rfl
  have hpie : (figFor P "pie" i pos).traces =
      [(Trace.pie ((List.range 25).map (fun j => "Slice_" ++ fmtNat 2 j))
        (expList P 10 pos 25) "none" "label+percent", none)] := rfl
  have hvio : (figFor P "violin" i pos).traces =
      [(Trace.violinPx
        (List.flatten ((List.range 5).map (fun k =>
          List.replicate 1000 ((["A", "B", "C", "D", "E"] : List String).getD k ""))))
        (List.flatten ((List.range 5).map (fun k =>
          normalList P
            (((((((["A", "B", "C", "D", "E"] : List String).getD k "").data.headD 'C').toNat
              : ℤ) - 67 : ℤ) : ℚ))
            1 (pos + k * 1000) 1000))), none)] := rfl
  have harea : (figFor P "area" i pos).traces = (List.range 5).map (fun (s : ℕ) =>
      (Trace.scatter (linspace 0 10 500)
        ((cumsum (randnList P (pos + s * 500) 500)).map (fun v => v + (s : ℚ) * 10))
        "lines" none (some (if 0 < s then "tonexty" else "tozeroy"))
        ("Series " ++ toString (s + 1)),
        (none : Option (Nat × Nat)))) := rfl
  have hfun : (figFor P "funnel" i pos).traces =
      [(Trace.funnel ((List.range 15).map (fun j => "Stage_" ++ fmtNat 2 j))
        ((List.insertionSort (· ≤ ·) (expList P 100 pos 15)).reverse)
        "value+percent initial", none)] := rfl
  have hfp : List.Perm ((List.insertionSort (· ≤ ·) (expList P 100 pos 15)).reverse)
      (expList P 100 pos 15) :=
    (List.reverse_perm _).trans (List.perm_insertionSort _ _)
  refine ⟨⟨by rw [hsc]; rfl, ?_, ?_⟩, ⟨by rw [hline]; rfl, ?_, ?_⟩,
    ⟨by rw [hbar]; rfl, ?_, ?_⟩, ⟨by rw [hhist]; rfl, ?_, ?_⟩,
    ⟨by rw [hbox]; rfl, ?_, by rw [hbox]; rfl⟩, ⟨by rw [hheat]; rfl, ?_, ?_⟩,
    ⟨by rw [hpie]; rfl, ?_, ?_⟩, ⟨by rw [hvio]; rfl, ?_, by rw [hvio]; rfl⟩,
    ⟨by rw [harea]; rfl, ?_, ?_⟩,
    ⟨by rw [hfun]; rfl, ?_, ?_⟩⟩
  · rw [hsc, List.map_map, List.eq_replicate_iff]
    refine ⟨by simp, fun b hb => ?_⟩
    simp only [List.mem_map, List.mem_range, Function.comp] at hb
    obtain ⟨s, hs, rfl⟩ := hb
    simp [traceNumX, randnList]
  · rw [hsc, List.map_map, List.eq_replicate_iff]
    refine ⟨by simp, fun b hb => ?_⟩
    simp only [List.mem_map, List.mem_range, Function.comp] at hb
    obtain ⟨s, hs, rfl⟩ := hb
    simp [traceNumY, randnList]
  · rw [hline, List.map_map, List.eq_replicate_iff]
    refine ⟨by simp, fun b hb => ?_⟩
    simp only [List.mem_map, List.mem_range, Function.comp] at hb
    obtain ⟨s, hs, rfl⟩ := hb
    simp [traceNumX, linspace]
  · rw [hline, List.map_map, List.eq_replicate_iff]
    refine ⟨by simp, fun b hb => ?_⟩
    simp only [List.mem_map, List.mem_range, Function.comp] at hb
    obtain ⟨s, hs, rfl⟩ := hb
    simp [traceNumY]
  · rw [hbar, List.map_map, List.eq_replicate_iff]
    refine ⟨by simp, fun b hb => ?_⟩
    simp only [List.mem_map, List.mem_range, Function.comp] at hb
    obtain ⟨s, hs, rfl⟩ := hb
    simp [traceStrs]
  · rw [hbar, List.map_map, List.eq_replicate_iff]
    refine ⟨by simp, fun b hb => ?_⟩
    simp only [List.mem_map, List.mem_range, Function.comp] at hb
    obtain ⟨s, hs, rfl⟩ := hb
    simp [traceNumY, expList]
  · rw [hhist, List.map_map, List.eq_replicate_iff]
    refine ⟨by simp, fun b hb => ?_⟩
    simp only [List.mem_map, List.mem_range, Function.comp] at hb
    obtain ⟨s, hs, rfl⟩ := hb
    simp [traceNumX, normalList]
  · rw [hhist, List.map_map, List.eq_replicate_iff]
    refine ⟨by simp, fun b hb => ?_⟩
    simp only [List.mem_map, List.mem_range, Function.comp] at hb
    obtain ⟨s, hs, rfl⟩ := hb
    simp [traceBins]
  · rw [hbox]
    dsimp only [List.getD_cons_zero, traceVals]
    rw [List.length_flatten, List.map_map]
    have : ((List.range 20).map
        (List.length ∘ fun j => normalList P (P.uniform (-2) 2 (P.stream (pos + j * 201)))
          1 (pos + j * 201 + 1) 200)) = (List.range 20).map (fun _ => 200) := by
      apply List.map_congr_left
      intro a _
      simp [Function.comp, normalList]
    rw [this, sum_map_const]
  · rw [hheat]
    dsimp only [List.getD_cons_zero, traceZ]
    simp [List.length_map, List.length_range]
  · rw [hheat]
    dsimp only [List.getD_cons_zero, traceZ]
    rw [List.map_map, List.eq_replicate_iff]
    refine ⟨by simp, fun b hb => ?_⟩
    simp only [List.mem_map, List.mem_range, Function.comp] at hb
    obtain ⟨s, hs, rfl⟩ := hb
    simp [randnList]
  · rw [hpie]
    dsimp only [List.getD_cons_zero, traceStrs]
    simp [List.length_map, List.length_range]
  · rw [hpie]
    dsimp only [List.getD_cons_zero, traceVals]
    simp [expList, List.length_map, List.length_range]
  · rw [hvio]
    dsimp only [List.getD_cons_zero, traceVals]
    rw [List.length_flatten, List.map_map]
    have : ((List.range 5).map
        (List.length ∘ fun k => normalList P
          (((((((["A", "B", "C", "D", "E"] : List String).getD k "").data.headD 'C').toNat
            : ℤ) - 67 : ℤ) : ℚ))
          1 (pos + k * 1000) 1000)) = (List.range 5).map (fun _ => 1000) := by
      apply List.map_congr_left
      intro a _
      simp [Function.comp, normalList]
    rw [this, sum_map_const]
  · rw [harea, List.map_map, List.eq_replicate_iff]
    refine ⟨by simp, fun b hb => ?_⟩
    simp only [List.mem_map, List.mem_range, Function.comp] at hb
    obtain ⟨s, hs, rfl⟩ := hb
    simp [traceNumX, linspace]
  · rw [harea, List.map_map, List.eq_replicate_iff]
    refine ⟨by simp, fun b hb => ?_⟩
    simp only [List.mem_map, List.mem_range, Function.comp] at hb
    obtain ⟨s, hs, rfl⟩ := hb
    simp [traceNumY, cumsum, randnList]
  · rw [hfun]
    dsimp only [List.getD_cons_zero, traceStrs]
    simp [List.length_map, List.length_range]
  · rw [hfun]
    dsimp only [List.getD_cons_zero, traceNumX]
    rw [hfp.length_eq]
    simp [expList, List.length_map, List.length_range]

theorem digitVal_digit (d : Nat) (hd : d < 10) :
    digitVal (Char.ofNat (48 + d)) = some d := by
  interval_cases d <;> rfl

theorem parseDigitsAux_append (l1 l2 : List Char) : ∀ acc,
    parseDigitsAux acc (l1 ++ l2) =
      match parseDigitsAux acc l1 with
      | some a => parseDigitsAux a l2
      | none => none := by
  induction l1 with
  | nil => intro acc; rfl
  | cons c cs ih =>
    intro acc
    simp only [List.cons_append, parseDigitsAux]
    cases h : digitVal c with
    | some d =>
      simp only
      exact ih _
    | none => simp only

theorem natRepr_data (n : Nat) :
    (natRepr n).data ≠ [] ∧ ∀ c ∈ (natRepr n).data, c.isDigit = true := by
  induction n using Nat.strong_induction_on with
  | _ n ih =>
    rw [natRepr]
    split
    next h =>
      have hs : (String.singleton (Char.ofNat (48 + n))).data =
          [Char.ofNat (48 + n)] := rfl
      refine ⟨by rw [hs]; simp, fun c hc => ?_⟩
      rw [hs] at hc
      have hc2 := List.mem_singleton.mp hc
      subst hc2
      interval_cases n <;> rfl
    next h =>
      have hd := ih (n / 10) (Nat.div_lt_self (by omega) (by omega))
      have hs : (String.singleton (Char.ofNat (48 + n % 10))).data =
          [Char.ofNat (48 + n % 10)] := rfl
      refine ⟨?_, fun c hc => ?_⟩
      · rw [String.data_append]
        intro hemp
        exact hd.1 (List.append_eq_nil.mp hemp).1
      · rw [String.data_append, hs] at hc
        rcases List.mem_append.mp hc with h1 | h2
        · exact hd.2 c h1
        · have hc2 := List.mem_singleton.mp h2
          subst hc2
          have hm : n % 10 < 10 := Nat.mod_lt _ (by omega)
          revert hm
          generalize n % 10 = d
          intro hm
          interval_cases d <;> rfl

theorem parseDigitsAux_natRepr (n : Nat) : ∀ acc,
    parseDigitsAux acc (natRepr n).data =
      some (acc * 10 ^ (natRepr n).data.length + n) := by
  induction n using Nat.strong_induction_on with
  | _ n ih =>
    intro acc
    rw [natRepr]
    split
    next h =>
      have hs : (String.singleton (Char.ofNat (48 + n))).data =
          [Char.ofNat (48 + n)] := rfl
      rw [hs]
      simp only [parseDigitsAux, digitVal_digit n h, List.length_cons,
        List.length_nil, Nat.zero_add, pow_one]
    next h =>
      have hlt : n / 10 < n := Nat.div_lt_self (by omega) (by omega)
      have hs : (String.singleton (Char.ofNat (48 + n % 10))).data =
          [Char.ofNat (48 + n % 10)] := rfl
      rw [String.data_append, hs, parseDigitsAux_append]
      rw [ih (n / 10) hlt acc]
      simp only [parseDigitsAux, digitVal_digit (n % 10) (Nat.mod_lt _ (by omega))]
      rw [List.length_append]
      simp only [List.length_cons, List.length_nil, Nat.zero_add]
      congr 1
      have hde : 10 * (n / 10) + n % 10 = n := Nat.div_add_mod n 10
      generalize (natRepr (n / 10)).data.length = L
      rw [pow_succ]
      ring_nf
      omega

theorem parseDigits_natRepr (n : Nat) : parseDigits (natRepr n).data = some n := by
  rw [parseDigits, if_neg (natRepr_data n).1]
  rw [parseDigitsAux_natRepr n 0]
  simp

theorem natRepr_head_digit (n : Nat) : ∀ c cs, (natRepr n).data = c :: cs →
    c ≠ '-' ∧ c ≠ '+' := by
  intro c cs hdata
  have hc : c.isDigit = true :=
    (natRepr_data n).2 c (by rw [hdata]; exact List.mem_cons_self c cs)
  constructor
  · intro he
    subst he
    exact absurd hc (by decide)
  · intro he
    subst he
    exact absurd hc (by decide)

theorem pyInt_natRepr (n : Nat) : pyInt (natRepr n) = .ok (n : ℤ) := by
  obtain ⟨c, cs, hdata⟩ : ∃ c cs, (natRepr n).data = c :: cs := by
    cases hd : (natRepr n).data with
    | nil => exact absurd hd (natRepr_data n).1
    | cons c cs => exact ⟨c, cs, rfl⟩
  obtain ⟨hc1, hc2⟩ := natRepr_head_digit n c cs hdata
  rw [pyInt, hdata]
  simp only [if_neg hc1, if_neg hc2]
  rw [← hdata, parseDigits_natRepr n]
  rfl

theorem pyInt_neg_natRepr (n : Nat) : pyInt ("-" ++ natRepr n) = .ok (-(n : ℤ)) := by
  have hdata : ("-" ++ natRepr n).data = '-' :: (natRepr n).data := by
    rw [String.data_append]
    rfl
  rw [pyInt, hdata]
  simp only [if_pos rfl]
  rw [parseDigits_natRepr n]
  rfl

/-- C6: the count resolver returns 4 when the configuration value is
absent, returns `n` when it is the base-10 string of an integer `n`
(also for negative values), and fails with the propagated parsing
error on a non-integer string — also through `generate_plots` when it
consults the resolver. -/
theorem count_resolver :
    get_plot_count none = .ok 4 ∧
    (∀ n : ℕ, get_plot_count (some (natRepr n)) = .ok (n : ℤ)) ∧
    (∀ n : ℕ, get_plot_count (some ("-" ++ natRepr n)) = .ok (-(n : ℤ))) ∧
    get_plot_count (some "abc") =
      .error ("invalid literal for int() with base 10: " ++ "abc") ∧
    (∀ (P : Prims) (sp : Bool) (pos : Nat),
      generate_plots P (some "abc") none sp pos =
        .error ("invalid literal for int() with base 10: " ++ "abc")) :=
  ⟨rfl, fun n => pyInt_natRepr n, fun n => pyInt_neg_natRepr n, rfl,
    fun _ _ _ => rfl⟩
